import Mathlib

/-!
Shallow embedding of the ECG monitoring core of `src/app.py`.

The global session state of the Python module (sample/timestamp/BPM
histories, rolling feature deques, the `event_state` dict, the
`event_counts` defaultdict, the flag timeline, and the scalars
`current_bpm`, `last_peak_time`, `last_signal_time`) is packed into one
`SessionState` structure.  Python floats carrying wall-clock seconds are
modelled as exact rationals; dict membership in `event_state` is modelled
as a Boolean-valued function over the closed set of event names; the
bounded deques are lists with explicit eviction (`pushCap`).

`detect_events`, `set_event`, the body of `ecg_loop`, the `/data` route's
smoothing and the `/reset` route are translated statement by statement
from the source.
-/

namespace EcgApp

/-- The closed set of event names (`CARDIAC_EVENTS` in `app.py`). -/
inductive EventName where
  | bradycardia
  | tachycardia
  | ventricularTachycardia
  | asystole
  | irregularRhythm
  | sinusNodeDysfunction
  | firstDegreeAVBlock
  | bundleBranchBlock
  | longQT
  | shortQT
  | earlyRepolarization
  | myocarditis
  deriving DecidableEq

/-- The display string of each event, as written in `CARDIAC_EVENTS`. -/
def evName : EventName → String
  | .bradycardia => "Bradycardia"
  | .tachycardia => "Tachycardia"
  | .ventricularTachycardia => "Ventricular Tachycardia"
  | .asystole => "Asystole / Flatline"
  | .irregularRhythm => "Irregular Rhythm"
  | .sinusNodeDysfunction => "Sinus Node Dysfunction"
  | .firstDegreeAVBlock => "First-Degree AV Block (possible)"
  | .bundleBranchBlock => "Bundle Branch Block (possible)"
  | .longQT => "Long QT (possible)"
  | .shortQT => "Short QT (possible)"
  | .earlyRepolarization => "Early Repolarization / ST Elevation (possible)"
  | .myocarditis => "Myocarditis (possible)"

/-- All twelve event names, in the order of the `CARDIAC_EVENTS` literal. -/
def allEvents : List EventName :=
  [.bradycardia, .tachycardia, .ventricularTachycardia, .asystole,
   .irregularRhythm, .sinusNodeDysfunction, .firstDegreeAVBlock,
   .bundleBranchBlock, .longQT, .shortQT, .earlyRepolarization, .myocarditis]

/-- `R_THRESHOLD` from the CONFIG block. -/
def R_THRESHOLD : ℤ := 15000

/-- `BRADY_BPM` from the CONFIG block. -/
def BRADY_BPM : ℤ := 50

/-- `TACHY_BPM` from the CONFIG block. -/
def TACHY_BPM : ℤ := 100

/-- `VTACH_BPM` from the CONFIG block. -/
def VTACH_BPM : ℤ := 150

/-- `ASYSTOLE_SEC` from the CONFIG block. -/
def ASYSTOLE_SEC : ℚ := 3.5

/-- The module-level mutable state of `app.py`.
`event_state m = true` models `m`'s display name being a key of the
`event_state` dict; `event_counts` models the `defaultdict(int)`. -/
structure SessionState where
  ecg_data : List ℤ
  timestamps : List ℚ
  bpm_history : List ℤ
  bpm_timestamps : List ℚ
  rr_intervals : List ℚ
  qrs_widths : List ℚ
  qt_intervals : List ℚ
  event_state : EventName → Bool
  event_counts : EventName → ℕ
  event_timeline : List String
  current_bpm : ℤ
  last_peak_time : Option ℚ
  last_signal_time : ℚ

/-- `set_event(name, condition)`: if the condition is truthy, put the name
into `event_state` and increment its count; otherwise pop it (leaving the
count untouched). -/
def set_event (name : EventName) (condition : Bool) (st : SessionState) :
    SessionState :=
  if condition then
    { st with
      event_state := fun m => if m = name then true else st.event_state m,
      event_counts := fun m =>
        if m = name then st.event_counts m + 1 else st.event_counts m }
  else
    { st with
      event_state := fun m => if m = name then false else st.event_state m }

/-- `active_cardiac_flags()`.  Every key ever written to `event_state` is in
`CARDIAC_EVENTS`, so the filter keeps exactly the active names; the Python
dict's insertion order is abstracted to the fixed order of `allEvents`
(no claim depends on the order inside one snapshot). -/
def active_cardiac_flags (st : SessionState) : List String :=
  (allEvents.filter fun e => st.event_state e).map evName

/-- `sum(xs) / len(xs)` (Python true division). -/
def listMean (xs : List ℚ) : ℚ := xs.sum / (xs.length : ℚ)

/-- `sum((r - mean_rr) ** 2 for r in xs) / len(xs)` — population variance. -/
def listVar (xs : List ℚ) : ℚ :=
  ((xs.map fun r => (r - listMean xs) ^ 2).sum) / (xs.length : ℚ)

/-- `detect_events(val, now)`, translated rule by rule in source order.
The rate, asystole and repolarization predicates read the scalars of the
incoming state (which no `set_event` changes); the myocarditis score reads
the `event_state` dict as already updated by the earlier rules.
`current_bpm and ...` is Python truthiness, i.e. `current_bpm ≠ 0 ∧ ...`. -/
def detect_events (val : ℤ) (now : ℚ) (st : SessionState) : SessionState :=
  let s1 := set_event .bradycardia
    (decide (st.current_bpm ≠ 0 ∧ st.current_bpm < BRADY_BPM)) st
  let s2 := set_event .tachycardia
    (decide (st.current_bpm ≠ 0 ∧ TACHY_BPM < st.current_bpm)) s1
  let s3 := set_event .ventricularTachycardia
    (decide (st.current_bpm ≠ 0 ∧ VTACH_BPM < st.current_bpm)) s2
  let s4 := set_event .asystole
    (decide (ASYSTOLE_SEC < now - st.last_signal_time)) s3
  let s5 :=
    if 6 < st.rr_intervals.length then
      let mean_rr := listMean st.rr_intervals
      let variance := listVar st.rr_intervals
      let a := set_event .irregularRhythm (decide (0.02 < variance)) s4
      let b := set_event .sinusNodeDysfunction
        (decide (0.03 < variance ∧ 1.2 < mean_rr)) a
      set_event .firstDegreeAVBlock
        (decide (1.0 < mean_rr ∧ variance < 0.005)) b
    else s4
  let s6 :=
    if 5 < st.qrs_widths.length then
      set_event .bundleBranchBlock (decide (0.14 < listMean st.qrs_widths)) s5
    else s5
  let s7 :=
    if 5 < st.qt_intervals.length then
      let avg_qt := listMean st.qt_intervals
      set_event .shortQT (decide (avg_qt < 0.32))
        (set_event .longQT (decide (0.48 < avg_qt)) s6)
    else s6
  let s8 := set_event .earlyRepolarization
    (decide ((R_THRESHOLD : ℚ) * 1.25 < (val : ℚ) ∧ st.current_bpm < 100)) s7
  let score :=
    (s8.event_state .tachycardia).toNat + (s8.event_state .irregularRhythm).toNat
      + (s8.event_state .earlyRepolarization).toNat
  set_event .myocarditis (decide (2 ≤ score)) s8

/-- Append on a `deque(maxlen := cap)`: push right, evict left when full. -/
def pushCap (cap : ℕ) (xs : List ℚ) (x : ℚ) : List ℚ :=
  (xs ++ [x]).drop ((xs ++ [x]).length - cap)

/-- The `R-PEAK DETECTION` block of `ecg_loop` on the sample `(val, t)`:
if the value crosses the threshold, accept the RR interval when the
refractory guard `rr > 0.25` passes (with the side effects on the RR/QT/QRS
windows and the BPM history), and in every crossing case advance
`last_peak_time` and `last_signal_time` to `t`.
`if last_peak_time:` is Python truthiness on an optional float, so both
`none` and `some 0` take the first-beat branch. -/
def peakUpdate (val : ℤ) (t : ℚ) (st : SessionState) : SessionState :=
  if R_THRESHOLD < val then
    let st3 :=
      match st.last_peak_time with
      | none => st
      | some lp =>
        if lp ≠ 0 then
          let rr := t - lp
          if 0.25 < rr then
            { st with
              rr_intervals := pushCap 60 st.rr_intervals rr,
              current_bpm := ⌊(60 : ℚ) / rr⌋,
              bpm_history := st.bpm_history ++ [⌊(60 : ℚ) / rr⌋],
              bpm_timestamps := st.bpm_timestamps ++ [t],
              qt_intervals := pushCap 30 st.qt_intervals (rr * 0.45),
              qrs_widths := pushCap 30 st.qrs_widths
                (0.08 + ((|val - R_THRESHOLD| : ℤ) : ℚ) / 100000) }
          else st
        else st
    { st3 with last_peak_time := some t, last_signal_time := t }
  else st

/-- `ecg_data.append(val); timestamps.append(t)` at the top of the loop body. -/
def recordRaw (val : ℤ) (t : ℚ) (st : SessionState) : SessionState :=
  { st with
    ecg_data := st.ecg_data ++ [val],
    timestamps := st.timestamps ++ [t] }

/-- One iteration of the body of `ecg_loop` on the sample `(val, t)`:
append the raw sample, run the R-peak detection block, run
`detect_events`, and append the flag snapshot. -/
def loopStep (val : ℤ) (t : ℚ) (st : SessionState) : SessionState :=
  let st2 := peakUpdate val t (recordRaw val t st)
  let st4 := detect_events val t st2
  { st4 with
    event_timeline :=
      st4.event_timeline ++ [String.intercalate "," (active_cardiac_flags st4)] }

/-- The `/reset` route: clear every collection.  The scalars
`current_bpm`, `last_peak_time`, `last_signal_time` are not reassigned by
the route and carry over. -/
def resetState (st : SessionState) : SessionState :=
  { st with
    ecg_data := []
    timestamps := []
    bpm_history := []
    bpm_timestamps := []
    rr_intervals := []
    qrs_widths := []
    qt_intervals := []
    event_state := fun _ => false
    event_counts := fun _ => 0
    event_timeline := [] }

/-- The module-level initial values of the globals; `t0` stands for the
`time.time()` read at import. -/
def initState (t0 : ℚ) : SessionState :=
  { ecg_data := []
    timestamps := []
    bpm_history := []
    bpm_timestamps := []
    rr_intervals := []
    qrs_widths := []
    qt_intervals := []
    event_state := fun _ => false
    event_counts := fun _ => 0
    event_timeline := []
    current_bpm := 0
    last_peak_time := none
    last_signal_time := t0 }

/-- Python `xs[-n:]`: the most recent `n` entries (all of them if fewer). -/
def lastN {α : Type} (n : ℕ) (xs : List α) : List α := xs.drop (xs.length - n)

/-- The smoothing of the `/data` route at index `i`:
`sum(ecg_data[max(0, i-w) : i+1]) / min(i+1, w)` with `w = 5`.
Natural subtraction `i - 5` is exactly `max(0, i-5)`, and the slice keeps
`(i+1) - (i-5)` elements starting there. -/
def smoothedAt (ecg : List ℤ) (i : ℕ) : ℚ :=
  (((ecg.drop (i - 5)).take (i + 1 - (i - 5))).map fun v => (v : ℚ)).sum
    / ((min (i + 1) 5 : ℕ) : ℚ)

/-- The full smoothed series built by the `/data` route's loop. -/
def smoothedOf (ecg : List ℤ) : List ℚ :=
  (List.range ecg.length).map fun i => smoothedAt ecg i

/-- The JSON payload of the `/data` route. -/
structure DataResp where
  ecg : List ℚ
  bpm : ℤ
  bpm_history : List ℤ
  events : List String

/-- The `/data` route: smoothed series truncated to the last 1000, the
current BPM, the last 300 BPM samples, and the keys of `event_state`. -/
def dataRoute (st : SessionState) : DataResp :=
  { ecg := lastN 1000 (smoothedOf st.ecg_data)
    bpm := st.current_bpm
    bpm_history := lastN 300 st.bpm_history
    events := (allEvents.filter fun e => st.event_state e).map evName }

/-- Modelled from the spec (for comparison with `smoothedAt` only): the
trailing moving average at index `i` over the `min(i+1, 5)` samples ending
at index `i` — "the average for sample index i uses min(i+1, window)
preceding samples (no look-ahead)". -/
def specSmoothedAt (ecg : List ℤ) (i : ℕ) : ℚ :=
  (((ecg.take (i + 1)).drop (i + 1 - 5)).map fun v => (v : ℚ)).sum
    / ((min (i + 1) 5 : ℕ) : ℚ)

/-! ### Projection lemmas for `set_event` and for `if` on states -/

@[simp] theorem set_event_event_state (name : EventName) (c : Bool)
    (st : SessionState) (m : EventName) :
    (set_event name c st).event_state m
      = if m = name then c else st.event_state m := by
  cases c <;> simp [set_event]

@[simp] theorem set_event_event_counts (name : EventName) (c : Bool)
    (st : SessionState) (m : EventName) :
    (set_event name c st).event_counts m
      = if m = name ∧ c = true then st.event_counts m + 1
        else st.event_counts m := by
  cases c <;> simp [set_event]

@[simp] theorem set_event_ecg (name : EventName) (c : Bool) (st : SessionState) :
    (set_event name c st).ecg_data = st.ecg_data := by cases c <;> rfl

@[simp] theorem set_event_ts (name : EventName) (c : Bool) (st : SessionState) :
    (set_event name c st).timestamps = st.timestamps := by cases c <;> rfl

@[simp] theorem set_event_bpmHist (name : EventName) (c : Bool) (st : SessionState) :
    (set_event name c st).bpm_history = st.bpm_history := by cases c <;> rfl

@[simp] theorem set_event_bpmTs (name : EventName) (c : Bool) (st : SessionState) :
    (set_event name c st).bpm_timestamps = st.bpm_timestamps := by cases c <;> rfl

@[simp] theorem set_event_rr (name : EventName) (c : Bool) (st : SessionState) :
    (set_event name c st).rr_intervals = st.rr_intervals := by cases c <;> rfl

@[simp] theorem set_event_qrs (name : EventName) (c : Bool) (st : SessionState) :
    (set_event name c st).qrs_widths = st.qrs_widths := by cases c <;> rfl

@[simp] theorem set_event_qt (name : EventName) (c : Bool) (st : SessionState) :
    (set_event name c st).qt_intervals = st.qt_intervals := by cases c <;> rfl

@[simp] theorem set_event_timeline (name : EventName) (c : Bool) (st : SessionState) :
    (set_event name c st).event_timeline = st.event_timeline := by cases c <;> rfl

@[simp] theorem set_event_bpm (name : EventName) (c : Bool) (st : SessionState) :
    (set_event name c st).current_bpm = st.current_bpm := by cases c <;> rfl

@[simp] theorem set_event_lastPeak (name : EventName) (c : Bool) (st : SessionState) :
    (set_event name c st).last_peak_time = st.last_peak_time := by cases c <;> rfl

@[simp] theorem set_event_lastSignal (name : EventName) (c : Bool) (st : SessionState) :
    (set_event name c st).last_signal_time = st.last_signal_time := by cases c <;> rfl

@[simp] theorem ite_event_state (g : Prop) [Decidable g] (A B : SessionState)
    (m : EventName) :
    (if g then A else B).event_state m
      = if g then A.event_state m else B.event_state m := by split <;> rfl

@[simp] theorem ite_event_counts (g : Prop) [Decidable g] (A B : SessionState)
    (m : EventName) :
    (if g then A else B).event_counts m
      = if g then A.event_counts m else B.event_counts m := by split <;> rfl

@[simp] theorem ite_ecg (g : Prop) [Decidable g] (A B : SessionState) :
    (if g then A else B).ecg_data = if g then A.ecg_data else B.ecg_data := by
  split <;> rfl

@[simp] theorem ite_ts (g : Prop) [Decidable g] (A B : SessionState) :
    (if g then A else B).timestamps = if g then A.timestamps else B.timestamps := by
  split <;> rfl

@[simp] theorem ite_bpmHist (g : Prop) [Decidable g] (A B : SessionState) :
    (if g then A else B).bpm_history
      = if g then A.bpm_history else B.bpm_history := by split <;> rfl

@[simp] theorem ite_bpmTs (g : Prop) [Decidable g] (A B : SessionState) :
    (if g then A else B).bpm_timestamps
      = if g then A.bpm_timestamps else B.bpm_timestamps := by split <;> rfl

@[simp] theorem ite_rr (g : Prop) [Decidable g] (A B : SessionState) :
    (if g then A else B).rr_intervals
      = if g then A.rr_intervals else B.rr_intervals := by split <;> rfl

@[simp] theorem ite_qrs (g : Prop) [Decidable g] (A B : SessionState) :
    (if g then A else B).qrs_widths = if g then A.qrs_widths else B.qrs_widths := by
  split <;> rfl

@[simp] theorem ite_qt (g : Prop) [Decidable g] (A B : SessionState) :
    (if g then A else B).qt_intervals
      = if g then A.qt_intervals else B.qt_intervals := by split <;> rfl

@[simp] theorem ite_timeline (g : Prop) [Decidable g] (A B : SessionState) :
    (if g then A else B).event_timeline
      = if g then A.event_timeline else B.event_timeline := by split <;> rfl

@[simp] theorem ite_bpm (g : Prop) [Decidable g] (A B : SessionState) :
    (if g then A else B).current_bpm
      = if g then A.current_bpm else B.current_bpm := by split <;> rfl

@[simp] theorem ite_lastPeak (g : Prop) [Decidable g] (A B : SessionState) :
    (if g then A else B).last_peak_time
      = if g then A.last_peak_time else B.last_peak_time := by split <;> rfl

@[simp] theorem ite_lastSignal (g : Prop) [Decidable g] (A B : SessionState) :
    (if g then A else B).last_signal_time
      = if g then A.last_signal_time else B.last_signal_time := by split <;> rfl

/-! ### `detect_events` leaves all non-event fields unchanged -/

@[simp] theorem detect_events_ecg (val : ℤ) (now : ℚ) (st : SessionState) :
    (detect_events val now st).ecg_data = st.ecg_data := by simp [detect_events]

@[simp] theorem detect_events_ts (val : ℤ) (now : ℚ) (st : SessionState) :
    (detect_events val now st).timestamps = st.timestamps := by simp [detect_events]

@[simp] theorem detect_events_bpmHist (val : ℤ) (now : ℚ) (st : SessionState) :
    (detect_events val now st).bpm_history = st.bpm_history := by
  simp [detect_events]

@[simp] theorem detect_events_bpmTs (val : ℤ) (now : ℚ) (st : SessionState) :
    (detect_events val now st).bpm_timestamps = st.bpm_timestamps := by
  simp [detect_events]

@[simp] theorem detect_events_rr (val : ℤ) (now : ℚ) (st : SessionState) :
    (detect_events val now st).rr_intervals = st.rr_intervals := by
  simp [detect_events]

@[simp] theorem detect_events_qrs (val : ℤ) (now : ℚ) (st : SessionState) :
    (detect_events val now st).qrs_widths = st.qrs_widths := by
  simp [detect_events]

@[simp] theorem detect_events_qt (val : ℤ) (now : ℚ) (st : SessionState) :
    (detect_events val now st).qt_intervals = st.qt_intervals := by
  simp [detect_events]

@[simp] theorem detect_events_timeline (val : ℤ) (now : ℚ) (st : SessionState) :
    (detect_events val now st).event_timeline = st.event_timeline := by
  simp [detect_events]

@[simp] theorem detect_events_bpm (val : ℤ) (now : ℚ) (st : SessionState) :
    (detect_events val now st).current_bpm = st.current_bpm := by
  simp [detect_events]

@[simp] theorem detect_events_lastPeak (val : ℤ) (now : ℚ) (st : SessionState) :
    (detect_events val now st).last_peak_time = st.last_peak_time := by
  simp [detect_events]

@[simp] theorem detect_events_lastSignal (val : ℤ) (now : ℚ) (st : SessionState) :
    (detect_events val now st).last_signal_time = st.last_signal_time := by
  simp [detect_events]

/-! ### Closed forms of the event flags and counts after `detect_events` -/

/-- The value the rr-guarded Irregular Rhythm rule leaves in `event_state`:
updated when the window is long enough, untouched otherwise. -/
def irregularAfter (st : SessionState) : Bool :=
  if 6 < st.rr_intervals.length then decide (0.02 < listVar st.rr_intervals)
  else st.event_state .irregularRhythm

/-- The myocarditis score as read by the composite rule: the already-updated
states of its three dependencies. -/
def myoScore (val : ℤ) (st : SessionState) : ℕ :=
  (decide (st.current_bpm ≠ 0 ∧ TACHY_BPM < st.current_bpm)).toNat
    + (irregularAfter st).toNat
    + (decide ((R_THRESHOLD : ℚ) * 1.25 < (val : ℚ) ∧ st.current_bpm < 100)).toNat

theorem detect_state_brady (val : ℤ) (now : ℚ) (st : SessionState) :
    (detect_events val now st).event_state .bradycardia
      = decide (st.current_bpm ≠ 0 ∧ st.current_bpm < BRADY_BPM) := by
  simp [detect_events]

theorem detect_state_tachy (val : ℤ) (now : ℚ) (st : SessionState) :
    (detect_events val now st).event_state .tachycardia
      = decide (st.current_bpm ≠ 0 ∧ TACHY_BPM < st.current_bpm) := by
  simp [detect_events]

theorem detect_state_vtach (val : ℤ) (now : ℚ) (st : SessionState) :
    (detect_events val now st).event_state .ventricularTachycardia
      = decide (st.current_bpm ≠ 0 ∧ VTACH_BPM < st.current_bpm) := by
  simp [detect_events]

theorem detect_state_asystole (val : ℤ) (now : ℚ) (st : SessionState) :
    (detect_events val now st).event_state .asystole
      = decide (ASYSTOLE_SEC < now - st.last_signal_time) := by
  simp [detect_events]

theorem detect_state_irregular (val : ℤ) (now : ℚ) (st : SessionState) :
    (detect_events val now st).event_state .irregularRhythm = irregularAfter st := by
  simp [detect_events, irregularAfter]

theorem detect_state_sinus (val : ℤ) (now : ℚ) (st : SessionState) :
    (detect_events val now st).event_state .sinusNodeDysfunction
      = (if 6 < st.rr_intervals.length then
          decide (0.03 < listVar st.rr_intervals ∧ 1.2 < listMean st.rr_intervals)
        else st.event_state .sinusNodeDysfunction) := by
  simp [detect_events]

theorem detect_state_avblock (val : ℤ) (now : ℚ) (st : SessionState) :
    (detect_events val now st).event_state .firstDegreeAVBlock
      = (if 6 < st.rr_intervals.length then
          decide (1.0 < listMean st.rr_intervals ∧ listVar st.rr_intervals < 0.005)
        else st.event_state .firstDegreeAVBlock) := by
  simp [detect_events]

theorem detect_state_bbb (val : ℤ) (now : ℚ) (st : SessionState) :
    (detect_events val now st).event_state .bundleBranchBlock
      = (if 5 < st.qrs_widths.length then
          decide (0.14 < listMean st.qrs_widths)
        else st.event_state .bundleBranchBlock) := by
  simp [detect_events]

theorem detect_state_longQT (val : ℤ) (now : ℚ) (st : SessionState) :
    (detect_events val now st).event_state .longQT
      = (if 5 < st.qt_intervals.length then
          decide (0.48 < listMean st.qt_intervals)
        else st.event_state .longQT) := by
  simp [detect_events]

theorem detect_state_shortQT (val : ℤ) (now : ℚ) (st : SessionState) :
    (detect_events val now st).event_state .shortQT
      = (if 5 < st.qt_intervals.length then
          decide (listMean st.qt_intervals < 0.32)
        else st.event_state .shortQT) := by
  simp [detect_events]

theorem detect_state_earlyRepol (val : ℤ) (now : ℚ) (st : SessionState) :
    (detect_events val now st).event_state .earlyRepolarization
      = decide ((R_THRESHOLD : ℚ) * 1.25 < (val : ℚ) ∧ st.current_bpm < 100) := by
  simp [detect_events]

theorem detect_state_myocarditis (val : ℤ) (now : ℚ) (st : SessionState) :
    (detect_events val now st).event_state .myocarditis
      = decide (2 ≤ myoScore val st) := by
  simp [detect_events, myoScore, irregularAfter]

theorem detect_counts_brady (val : ℤ) (now : ℚ) (st : SessionState) :
    (detect_events val now st).event_counts .bradycardia
      = (if st.current_bpm ≠ 0 ∧ st.current_bpm < BRADY_BPM then
          st.event_counts .bradycardia + 1 else st.event_counts .bradycardia) := by
  simp [detect_events]

theorem detect_counts_tachy (val : ℤ) (now : ℚ) (st : SessionState) :
    (detect_events val now st).event_counts .tachycardia
      = (if st.current_bpm ≠ 0 ∧ TACHY_BPM < st.current_bpm then
          st.event_counts .tachycardia + 1 else st.event_counts .tachycardia) := by
  simp [detect_events]

theorem detect_counts_vtach (val : ℤ) (now : ℚ) (st : SessionState) :
    (detect_events val now st).event_counts .ventricularTachycardia
      = (if st.current_bpm ≠ 0 ∧ VTACH_BPM < st.current_bpm then
          st.event_counts .ventricularTachycardia + 1
        else st.event_counts .ventricularTachycardia) := by
  simp [detect_events]

theorem detect_counts_asystole (val : ℤ) (now : ℚ) (st : SessionState) :
    (detect_events val now st).event_counts .asystole
      = (if ASYSTOLE_SEC < now - st.last_signal_time then
          st.event_counts .asystole + 1 else st.event_counts .asystole) := by
  simp [detect_events]

theorem detect_counts_irregular (val : ℤ) (now : ℚ) (st : SessionState) :
    (detect_events val now st).event_counts .irregularRhythm
      = (if 6 < st.rr_intervals.length then
          (if 0.02 < listVar st.rr_intervals then
            st.event_counts .irregularRhythm + 1
          else st.event_counts .irregularRhythm)
        else st.event_counts .irregularRhythm) := by
  simp [detect_events]

theorem detect_counts_sinus (val : ℤ) (now : ℚ) (st : SessionState) :
    (detect_events val now st).event_counts .sinusNodeDysfunction
      = (if 6 < st.rr_intervals.length then
          (if 0.03 < listVar st.rr_intervals ∧ 1.2 < listMean st.rr_intervals then
            st.event_counts .sinusNodeDysfunction + 1
          else st.event_counts .sinusNodeDysfunction)
        else st.event_counts .sinusNodeDysfunction) := by
  simp [detect_events]

theorem detect_counts_avblock (val : ℤ) (now : ℚ) (st : SessionState) :
    (detect_events val now st).event_counts .firstDegreeAVBlock
      = (if 6 < st.rr_intervals.length then
          (if 1.0 < listMean st.rr_intervals ∧ listVar st.rr_intervals < 0.005 then
            st.event_counts .firstDegreeAVBlock + 1
          else st.event_counts .firstDegreeAVBlock)
        else st.event_counts .firstDegreeAVBlock) := by
  simp [detect_events]

theorem detect_counts_bbb (val : ℤ) (now : ℚ) (st : SessionState) :
    (detect_events val now st).event_counts .bundleBranchBlock
      = (if 5 < st.qrs_widths.length then
          (if 0.14 < listMean st.qrs_widths then
            st.event_counts .bundleBranchBlock + 1
          else st.event_counts .bundleBranchBlock)
        else st.event_counts .bundleBranchBlock) := by
  simp [detect_events]

theorem detect_counts_longQT (val : ℤ) (now : ℚ) (st : SessionState) :
    (detect_events val now st).event_counts .longQT
      = (if 5 < st.qt_intervals.length then
          (if 0.48 < listMean st.qt_intervals then
            st.event_counts .longQT + 1 else st.event_counts .longQT)
        else st.event_counts .longQT) := by
  simp [detect_events]

theorem detect_counts_shortQT (val : ℤ) (now : ℚ) (st : SessionState) :
    (detect_events val now st).event_counts .shortQT
      = (if 5 < st.qt_intervals.length then
          (if listMean st.qt_intervals < 0.32 then
            st.event_counts .shortQT + 1 else st.event_counts .shortQT)
        else st.event_counts .shortQT) := by
  simp [detect_events]

theorem detect_counts_earlyRepol (val : ℤ) (now : ℚ) (st : SessionState) :
    (detect_events val now st).event_counts .earlyRepolarization
      = (if (R_THRESHOLD : ℚ) * 1.25 < (val : ℚ) ∧ st.current_bpm < 100 then
          st.event_counts .earlyRepolarization + 1
        else st.event_counts .earlyRepolarization) := by
  simp [detect_events]

theorem detect_counts_myocarditis (val : ℤ) (now : ℚ) (st : SessionState) :
    (detect_events val now st).event_counts .myocarditis
      = (if 2 ≤ myoScore val st then
          st.event_counts .myocarditis + 1 else st.event_counts .myocarditis) := by
  simp [detect_events, myoScore, irregularAfter]

/-! ### Lemmas about `recordRaw`, `peakUpdate` and `loopStep` -/

@[simp] theorem recordRaw_ecg (val : ℤ) (t : ℚ) (st : SessionState) :
    (recordRaw val t st).ecg_data = st.ecg_data ++ [val] := rfl

@[simp] theorem recordRaw_ts (val : ℤ) (t : ℚ) (st : SessionState) :
    (recordRaw val t st).timestamps = st.timestamps ++ [t] := rfl

@[simp] theorem recordRaw_bpmHist (val : ℤ) (t : ℚ) (st : SessionState) :
    (recordRaw val t st).bpm_history = st.bpm_history := rfl

@[simp] theorem recordRaw_bpmTs (val : ℤ) (t : ℚ) (st : SessionState) :
    (recordRaw val t st).bpm_timestamps = st.bpm_timestamps := rfl

@[simp] theorem recordRaw_rr (val : ℤ) (t : ℚ) (st : SessionState) :
    (recordRaw val t st).rr_intervals = st.rr_intervals := rfl

@[simp] theorem recordRaw_qrs (val : ℤ) (t : ℚ) (st : SessionState) :
    (recordRaw val t st).qrs_widths = st.qrs_widths := rfl

@[simp] theorem recordRaw_qt (val : ℤ) (t : ℚ) (st : SessionState) :
    (recordRaw val t st).qt_intervals = st.qt_intervals := rfl

@[simp] theorem recordRaw_event_state (val : ℤ) (t : ℚ) (st : SessionState) :
    (recordRaw val t st).event_state = st.event_state := rfl

@[simp] theorem recordRaw_event_counts (val : ℤ) (t : ℚ) (st : SessionState) :
    (recordRaw val t st).event_counts = st.event_counts := rfl

@[simp] theorem recordRaw_timeline (val : ℤ) (t : ℚ) (st : SessionState) :
    (recordRaw val t st).event_timeline = st.event_timeline := rfl

@[simp] theorem recordRaw_bpm (val : ℤ) (t : ℚ) (st : SessionState) :
    (recordRaw val t st).current_bpm = st.current_bpm := rfl

@[simp] theorem recordRaw_lastPeak (val : ℤ) (t : ℚ) (st : SessionState) :
    (recordRaw val t st).last_peak_time = st.last_peak_time := rfl

@[simp] theorem recordRaw_lastSignal (val : ℤ) (t : ℚ) (st : SessionState) :
    (recordRaw val t st).last_signal_time = st.last_signal_time := rfl

@[simp] theorem peakUpdate_ecg (val : ℤ) (t : ℚ) (st : SessionState) :
    (peakUpdate val t st).ecg_data = st.ecg_data := by
  cases h : st.last_peak_time with
  | none => simp only [peakUpdate, h]; split_ifs <;> rfl
  | some lp => simp only [peakUpdate, h]; split_ifs <;> rfl

@[simp] theorem peakUpdate_ts (val : ℤ) (t : ℚ) (st : SessionState) :
    (peakUpdate val t st).timestamps = st.timestamps := by
  cases h : st.last_peak_time with
  | none => simp only [peakUpdate, h]; split_ifs <;> rfl
  | some lp => simp only [peakUpdate, h]; split_ifs <;> rfl

@[simp] theorem peakUpdate_event_state (val : ℤ) (t : ℚ) (st : SessionState) :
    (peakUpdate val t st).event_state = st.event_state := by
  cases h : st.last_peak_time with
  | none => simp only [peakUpdate, h]; split_ifs <;> rfl
  | some lp => simp only [peakUpdate, h]; split_ifs <;> rfl

@[simp] theorem peakUpdate_event_counts (val : ℤ) (t : ℚ) (st : SessionState) :
    (peakUpdate val t st).event_counts = st.event_counts := by
  cases h : st.last_peak_time with
  | none => simp only [peakUpdate, h]; split_ifs <;> rfl
  | some lp => simp only [peakUpdate, h]; split_ifs <;> rfl

@[simp] theorem peakUpdate_timeline (val : ℤ) (t : ℚ) (st : SessionState) :
    (peakUpdate val t st).event_timeline = st.event_timeline := by
  cases h : st.last_peak_time with
  | none => simp only [peakUpdate, h]; split_ifs <;> rfl
  | some lp => simp only [peakUpdate, h]; split_ifs <;> rfl

theorem peakUpdate_lastSignal (val : ℤ) (t : ℚ) (st : SessionState) :
    (peakUpdate val t st).last_signal_time
      = if R_THRESHOLD < val then t else st.last_signal_time := by
  cases h : st.last_peak_time with
  | none => simp only [peakUpdate, h]; split_ifs <;> rfl
  | some lp => simp only [peakUpdate, h]; split_ifs <;> rfl

theorem peakUpdate_lastPeak (val : ℤ) (t : ℚ) (st : SessionState) :
    (peakUpdate val t st).last_peak_time
      = if R_THRESHOLD < val then some t else st.last_peak_time := by
  cases h : st.last_peak_time with
  | none => simp only [peakUpdate, h]; split_ifs <;> first | rfl | exact h
  | some lp => simp only [peakUpdate, h]; split_ifs <;> first | rfl | exact h

/-- A crossing that fails the refractory guard (or hits the truthiness
first-beat branch at `lp = 0`) only advances the two timestamps. -/
theorem peakUpdate_noAccept (val : ℤ) (t : ℚ) (st : SessionState) (lp : ℚ)
    (h1 : st.last_peak_time = some lp) (h2 : R_THRESHOLD < val)
    (h3 : t - lp ≤ 0.25) :
    peakUpdate val t st
      = { st with last_peak_time := some t, last_signal_time := t } := by
  have h4 : ¬ (0.25 < t - lp) := not_lt.mpr h3
  simp only [peakUpdate, h1]
  rw [if_pos h2]
  by_cases h0 : lp = 0
  · simp [h0]
  · simp [h0, h4]

/-- An accepted crossing: the RR interval is pushed, BPM derived, and the
QT/QRS proxies pushed, besides the two timestamps advancing. -/
theorem peakUpdate_accept (val : ℤ) (t : ℚ) (st : SessionState) (lp : ℚ)
    (h1 : st.last_peak_time = some lp) (h0 : lp ≠ 0)
    (h2 : R_THRESHOLD < val) (h3 : 0.25 < t - lp) :
    peakUpdate val t st
      = { st with
          rr_intervals := pushCap 60 st.rr_intervals (t - lp),
          current_bpm := ⌊(60 : ℚ) / (t - lp)⌋,
          bpm_history := st.bpm_history ++ [⌊(60 : ℚ) / (t - lp)⌋],
          bpm_timestamps := st.bpm_timestamps ++ [t],
          qt_intervals := pushCap 30 st.qt_intervals ((t - lp) * 0.45),
          qrs_widths := pushCap 30 st.qrs_widths
            (0.08 + ((|val - R_THRESHOLD| : ℤ) : ℚ) / 100000),
          last_peak_time := some t,
          last_signal_time := t } := by
  simp only [peakUpdate, h1]
  rw [if_pos h2]
  simp [h0, h3]

/-- The peak-detection block either leaves the BPM pair alone or appends one
entry to each of its two histories. -/
theorem peakUpdate_bpm_cases (val : ℤ) (t : ℚ) (st : SessionState) :
    ((peakUpdate val t st).bpm_history = st.bpm_history ∧
      (peakUpdate val t st).bpm_timestamps = st.bpm_timestamps) ∨
    (∃ b, (peakUpdate val t st).bpm_history = st.bpm_history ++ [b] ∧
      (peakUpdate val t st).bpm_timestamps = st.bpm_timestamps ++ [t]) := by
  cases h : st.last_peak_time with
  | none =>
      left
      simp only [peakUpdate, h]
      split_ifs <;> exact ⟨rfl, rfl⟩
  | some lp =>
      simp only [peakUpdate, h]
      split_ifs with hA hB hC
      · exact Or.inr ⟨⌊(60 : ℚ) / (t - lp)⌋, rfl, rfl⟩
      · exact Or.inl ⟨rfl, rfl⟩
      · exact Or.inl ⟨rfl, rfl⟩
      · exact Or.inl ⟨rfl, rfl⟩

/-- Every element of the RR window after the block was already there or is
an interval that passed the `rr > 0.25` refractory guard. -/
theorem peakUpdate_rr_mem (val : ℤ) (t : ℚ) (st : SessionState) (r : ℚ)
    (hr : r ∈ (peakUpdate val t st).rr_intervals) :
    r ∈ st.rr_intervals ∨ 0.25 < r := by
  cases h : st.last_peak_time with
  | none =>
      simp only [peakUpdate, h] at hr
      split_ifs at hr
      all_goals exact Or.inl hr
  | some lp =>
      simp only [peakUpdate, h] at hr
      split_ifs at hr with hA hB hC
      · have hr' : r ∈ st.rr_intervals ++ [t - lp] :=
          List.mem_of_mem_drop (by simpa [pushCap] using hr)
        rcases List.mem_append.mp hr' with h' | h'
        · exact Or.inl h'
        · right
          rw [List.mem_singleton.mp h']
          exact hC
      · exact Or.inl hr
      · exact Or.inl hr
      · exact Or.inl hr

@[simp] theorem loopStep_ecg (val : ℤ) (t : ℚ) (st : SessionState) :
    (loopStep val t st).ecg_data = st.ecg_data ++ [val] := by
  simp [loopStep]

@[simp] theorem loopStep_ts (val : ℤ) (t : ℚ) (st : SessionState) :
    (loopStep val t st).timestamps = st.timestamps ++ [t] := by
  simp [loopStep]

theorem loopStep_timeline_len (val : ℤ) (t : ℚ) (st : SessionState) :
    (loopStep val t st).event_timeline.length = st.event_timeline.length + 1 := by
  simp [loopStep]

theorem loopStep_bpmHist (val : ℤ) (t : ℚ) (st : SessionState) :
    (loopStep val t st).bpm_history
      = (peakUpdate val t (recordRaw val t st)).bpm_history := by
  simp [loopStep]

theorem loopStep_bpmTs (val : ℤ) (t : ℚ) (st : SessionState) :
    (loopStep val t st).bpm_timestamps
      = (peakUpdate val t (recordRaw val t st)).bpm_timestamps := by
  simp [loopStep]

theorem loopStep_rr (val : ℤ) (t : ℚ) (st : SessionState) :
    (loopStep val t st).rr_intervals
      = (peakUpdate val t (recordRaw val t st)).rr_intervals := by
  simp [loopStep]

theorem loopStep_bpm (val : ℤ) (t : ℚ) (st : SessionState) :
    (loopStep val t st).current_bpm
      = (peakUpdate val t (recordRaw val t st)).current_bpm := by
  simp [loopStep]

theorem loopStep_lastPeak (val : ℤ) (t : ℚ) (st : SessionState) :
    (loopStep val t st).last_peak_time
      = (peakUpdate val t (recordRaw val t st)).last_peak_time := by
  simp [loopStep]

theorem loopStep_lastSignal (val : ℤ) (t : ℚ) (st : SessionState) :
    (loopStep val t st).last_signal_time
      = (peakUpdate val t (recordRaw val t st)).last_signal_time := by
  simp [loopStep]

theorem loopStep_event_state (val : ℤ) (t : ℚ) (st : SessionState)
    (m : EventName) :
    (loopStep val t st).event_state m
      = (detect_events val t (peakUpdate val t (recordRaw val t st))).event_state
          m := rfl

/-! ### Auxiliary stability lemmas for repeated evaluation -/

theorem irregularAfter_detect (val : ℤ) (now : ℚ) (st : SessionState) :
    irregularAfter (detect_events val now st) = irregularAfter st := by
  by_cases h : 6 < st.rr_intervals.length <;>
    simp [irregularAfter, h, detect_state_irregular]

theorem myoScore_detect (val : ℤ) (now : ℚ) (st : SessionState) :
    myoScore val (detect_events val now st) = myoScore val st := by
  simp [myoScore, irregularAfter_detect]

/-! ### Concrete states used by witnesses and counterexamples -/

/-- A state whose current BPM is 160 and everything else is fresh. -/
def stBpm160 : SessionState := { initState 0 with current_bpm := 160 }

/-- A state with some history and an 80 BPM reading, for the reset claims. -/
def stBpm80 : SessionState :=
  { initState 0 with
    current_bpm := 80, ecg_data := [1], timestamps := [0],
    event_state := fun e => decide (e = EventName.bradycardia) }

/-- A state in which Irregular Rhythm is latched active while the RR window
is empty. -/
def stC4 : SessionState :=
  { initState 0 with
    event_state := fun e => decide (e = EventName.irregularRhythm) }

/-- A state with a previous peak at time 10, for the refractory claim. -/
def stC6 : SessionState := { initState 0 with last_peak_time := some 10 }

/-- A state with a previous peak at time 1, for the BPM claim. -/
def stC7 : SessionState := { initState 0 with last_peak_time := some 1 }

/-! ### The claims -/

/-- C1 (counterexample): with `current_bpm = 160` the Tachycardia
predicate is true, so a second identical evaluation leaves the active set
unchanged but increments the occurrence count again — `set_event` counts
every true evaluation, not only false-to-true transitions. -/
theorem C1_counterexample :
    ((detect_events 0 0 (detect_events 0 0 stBpm160)).event_state .tachycardia
      = (detect_events 0 0 stBpm160).event_state .tachycardia) ∧
    ((detect_events 0 0 (detect_events 0 0 stBpm160)).event_counts .tachycardia
      = (detect_events 0 0 stBpm160).event_counts .tachycardia + 1) := by
  constructor
  · simp only [detect_state_tachy, detect_events_bpm]
  · rw [detect_counts_tachy]
    simp [stBpm160, initState, TACHY_BPM]

/-- C1 (amended): calling `evaluate` twice with unchanged inputs and time
yields the same active set, but occurrence counting is per-true-evaluation
rather than edge-triggered: on the second call every event that ends up
inactive keeps its count, and every count either stays (rule skipped) or
increments by exactly one (predicate evaluated true), the event then being
active. -/
theorem C1_evaluate_twice (val : ℤ) (now : ℚ) (st : SessionState) :
    (∀ e, (detect_events val now (detect_events val now st)).event_state e
        = (detect_events val now st).event_state e) ∧
    (∀ e,
      ((detect_events val now (detect_events val now st)).event_state e = false ∧
        (detect_events val now (detect_events val now st)).event_counts e
          = (detect_events val now st).event_counts e) ∨
      ((detect_events val now (detect_events val now st)).event_state e = true ∧
        ((detect_events val now (detect_events val now st)).event_counts e
            = (detect_events val now st).event_counts e ∨
          (detect_events val now (detect_events val now st)).event_counts e
            = (detect_events val now st).event_counts e + 1))) := by
  constructor
  · intro e
    cases e with
    | bradycardia => simp only [detect_state_brady, detect_events_bpm]
    | tachycardia => simp only [detect_state_tachy, detect_events_bpm]
    | ventricularTachycardia => simp only [detect_state_vtach, detect_events_bpm]
    | asystole => simp only [detect_state_asystole, detect_events_lastSignal]
    | irregularRhythm => simp only [detect_state_irregular, irregularAfter_detect]
    | sinusNodeDysfunction =>
        simp only [detect_state_sinus, detect_events_rr]
        split_ifs <;> rfl
    | firstDegreeAVBlock =>
        simp only [detect_state_avblock, detect_events_rr]
        split_ifs <;> rfl
    | bundleBranchBlock =>
        simp only [detect_state_bbb, detect_events_qrs]
        split_ifs <;> rfl
    | longQT =>
        simp only [detect_state_longQT, detect_events_qt]
        split_ifs <;> rfl
    | shortQT =>
        simp only [detect_state_shortQT, detect_events_qt]
        split_ifs <;> rfl
    | earlyRepolarization => simp only [detect_state_earlyRepol, detect_events_bpm]
    | myocarditis => simp only [detect_state_myocarditis, myoScore_detect]
  · intro e
    cases e with
    | bradycardia =>
        by_cases hP : st.current_bpm ≠ 0 ∧ st.current_bpm < BRADY_BPM
        · exact Or.inr ⟨by simp [detect_state_brady, hP],
            Or.inr (by simp [detect_counts_brady, hP])⟩
        · exact Or.inl ⟨by simp [detect_state_brady, hP],
            by simp [detect_counts_brady, hP]⟩
    | tachycardia =>
        by_cases hP : st.current_bpm ≠ 0 ∧ TACHY_BPM < st.current_bpm
        · exact Or.inr ⟨by simp [detect_state_tachy, hP],
            Or.inr (by simp [detect_counts_tachy, hP])⟩
        · exact Or.inl ⟨by simp [detect_state_tachy, hP],
            by simp [detect_counts_tachy, hP]⟩
    | ventricularTachycardia =>
        by_cases hP : st.current_bpm ≠ 0 ∧ VTACH_BPM < st.current_bpm
        · exact Or.inr ⟨by simp [detect_state_vtach, hP],
            Or.inr (by simp [detect_counts_vtach, hP])⟩
        · exact Or.inl ⟨by simp [detect_state_vtach, hP],
            by simp [detect_counts_vtach, hP]⟩
    | asystole =>
        by_cases hP : ASYSTOLE_SEC < now - st.last_signal_time
        · exact Or.inr ⟨by simp [detect_state_asystole, hP],
            Or.inr (by simp [detect_counts_asystole, hP])⟩
        · exact Or.inl ⟨by simp [detect_state_asystole, hP],
            by simp [detect_counts_asystole, hP]⟩
    | irregularRhythm =>
        by_cases hg : 6 < st.rr_intervals.length
        · by_cases hv : 0.02 < listVar st.rr_intervals
          · exact Or.inr
              ⟨by simp [detect_state_irregular, irregularAfter_detect,
                  irregularAfter, hg, hv],
                Or.inr (by simp [detect_counts_irregular, hg, hv])⟩
          · exact Or.inl
              ⟨by simp [detect_state_irregular, irregularAfter_detect,
                  irregularAfter, hg, hv],
                by simp [detect_counts_irregular, hg, hv]⟩
        · cases hb : st.event_state .irregularRhythm with
          | false =>
              exact Or.inl
                ⟨by simp [detect_state_irregular, irregularAfter_detect,
                    irregularAfter, hg, hb],
                  by simp [detect_counts_irregular, hg]⟩
          | true =>
              exact Or.inr
                ⟨by simp [detect_state_irregular, irregularAfter_detect,
                    irregularAfter, hg, hb],
                  Or.inl (by simp [detect_counts_irregular, hg])⟩
    | sinusNodeDysfunction =>
        by_cases hg : 6 < st.rr_intervals.length
        · by_cases hv : 0.03 < listVar st.rr_intervals ∧ 1.2 < listMean st.rr_intervals
          · exact Or.inr ⟨by simp [detect_state_sinus, hg, hv],
              Or.inr (by simp [detect_counts_sinus, hg, hv])⟩
          · exact Or.inl ⟨by simp [detect_state_sinus, hg, hv],
              by simp [detect_counts_sinus, hg, hv]⟩
        · cases hb : st.event_state .sinusNodeDysfunction with
          | false =>
              exact Or.inl ⟨by simp [detect_state_sinus, hg, hb],
                by simp [detect_counts_sinus, hg]⟩
          | true =>
              exact Or.inr ⟨by simp [detect_state_sinus, hg, hb],
                Or.inl (by simp [detect_counts_sinus, hg])⟩
    | firstDegreeAVBlock =>
        by_cases hg : 6 < st.rr_intervals.length
        · by_cases hv : 1.0 < listMean st.rr_intervals ∧ listVar st.rr_intervals < 0.005
          · exact Or.inr ⟨by simp [detect_state_avblock, hg, hv],
              Or.inr (by simp [detect_counts_avblock, hg, hv])⟩
          · exact Or.inl ⟨by simp [detect_state_avblock, hg, hv],
              by simp [detect_counts_avblock, hg, hv]⟩
        · cases hb : st.event_state .firstDegreeAVBlock with
          | false =>
              exact Or.inl ⟨by simp [detect_state_avblock, hg, hb],
                by simp [detect_counts_avblock, hg]⟩
          | true =>
              exact Or.inr ⟨by simp [detect_state_avblock, hg, hb],
                Or.inl (by simp [detect_counts_avblock, hg])⟩
    | bundleBranchBlock =>
        by_cases hg : 5 < st.qrs_widths.length
        · by_cases hv : 0.14 < listMean st.qrs_widths
          · exact Or.inr ⟨by simp [detect_state_bbb, hg, hv],
              Or.inr (by simp [detect_counts_bbb, hg, hv])⟩
          · exact Or.inl ⟨by simp [detect_state_bbb, hg, hv],
              by simp [detect_counts_bbb, hg, hv]⟩
        · cases hb : st.event_state .bundleBranchBlock with
          | false =>
              exact Or.inl ⟨by simp [detect_state_bbb, hg, hb],
                by simp [detect_counts_bbb, hg]⟩
          | true =>
              exact Or.inr ⟨by simp [detect_state_bbb, hg, hb],
                Or.inl (by simp [detect_counts_bbb, hg])⟩
    | longQT =>
        by_cases hg : 5 < st.qt_intervals.length
        · by_cases hv : 0.48 < listMean st.qt_intervals
          · exact Or.inr ⟨by simp [detect_state_longQT, hg, hv],
              Or.inr (by simp [detect_counts_longQT, hg, hv])⟩
          · exact Or.inl ⟨by simp [detect_state_longQT, hg, hv],
              by simp [detect_counts_longQT, hg, hv]⟩
        · cases hb : st.event_state .longQT with
          | false =>
              exact Or.inl ⟨by simp [detect_state_longQT, hg, hb],
                by simp [detect_counts_longQT, hg]⟩
          | true =>
              exact Or.inr ⟨by simp [detect_state_longQT, hg, hb],
                Or.inl (by simp [detect_counts_longQT, hg])⟩
    | shortQT =>
        by_cases hg : 5 < st.qt_intervals.length
        · by_cases hv : listMean st.qt_intervals < 0.32
          · exact Or.inr ⟨by simp [detect_state_shortQT, hg, hv],
              Or.inr (by simp [detect_counts_shortQT, hg, hv])⟩
          · exact Or.inl ⟨by simp [detect_state_shortQT, hg, hv],
              by simp [detect_counts_shortQT, hg, hv]⟩
        · cases hb : st.event_state .shortQT with
          | false =>
              exact Or.inl ⟨by simp [detect_state_shortQT, hg, hb],
                by simp [detect_counts_shortQT, hg]⟩
          | true =>
              exact Or.inr ⟨by simp [detect_state_shortQT, hg, hb],
                Or.inl (by simp [detect_counts_shortQT, hg])⟩
    | earlyRepolarization =>
        by_cases hP : (R_THRESHOLD : ℚ) * 1.25 < (val : ℚ) ∧ st.current_bpm < 100
        · exact Or.inr ⟨by simp [detect_state_earlyRepol, hP],
            Or.inr (by simp [detect_counts_earlyRepol, hP])⟩
        · exact Or.inl ⟨by simp [detect_state_earlyRepol, hP],
            by simp [detect_counts_earlyRepol, hP]⟩
    | myocarditis =>
        by_cases hP : 2 ≤ myoScore val st
        · exact Or.inr ⟨by simp [detect_state_myocarditis, myoScore_detect, hP],
            Or.inr (by simp [detect_counts_myocarditis, myoScore_detect, hP])⟩
        · exact Or.inl ⟨by simp [detect_state_myocarditis, myoScore_detect, hP],
            by simp [detect_counts_myocarditis, myoScore_detect, hP]⟩

/-- C2 (counterexample): the claim says a query issued after `reset()`
reports zero BPM; but `reset` does not clear `current_bpm`, so after a
reset from a state reading 80 BPM the `/data` route still reports 80. -/
theorem C2_counterexample :
    (dataRoute (resetState stBpm80)).bpm = 80 ∧ (80 : ℤ) ≠ 0 :=
  ⟨rfl, by decide⟩

/-- C2 (amended): `reset()` empties every history and feature window,
deactivates every event and zeroes every occurrence count, but the scalars
`current_bpm`, `last_peak_time` and `last_signal_time` survive, so a query
after reset reports the pre-reset BPM rather than zero. -/
theorem C2_reset (st : SessionState) :
    (resetState st).ecg_data = [] ∧ (resetState st).timestamps = [] ∧
    (resetState st).bpm_history = [] ∧ (resetState st).bpm_timestamps = [] ∧
    (resetState st).rr_intervals = [] ∧ (resetState st).qrs_widths = [] ∧
    (resetState st).qt_intervals = [] ∧ (resetState st).event_timeline = [] ∧
    (∀ e, (resetState st).event_state e = false) ∧
    (∀ e, (resetState st).event_counts e = 0) ∧
    (resetState st).current_bpm = st.current_bpm ∧
    (resetState st).last_peak_time = st.last_peak_time ∧
    (resetState st).last_signal_time = st.last_signal_time ∧
    (dataRoute (resetState st)).bpm = st.current_bpm :=
  ⟨rfl, rfl, rfl, rfl, rfl, rfl, rfl, rfl, fun _ => rfl, fun _ => rfl,
    rfl, rfl, rfl, rfl⟩

/-- C3 (code bug): at index 5 of the raw series `[5, 0, 0, 0, 0, 0]` the
route sums the six samples of the slice `ecg_data[0:6]` but divides by
`min(6, 5) = 5`, yielding 1, whereas the trailing moving average over
`min(i+1, 5) = 5` samples stated by the spec is 0.  On series shorter than
six samples (such as the spec's `[10, 20, 30]` example) the two agree. -/
theorem C3_smoothing_bug :
    smoothedAt [5, 0, 0, 0, 0, 0] 5 = 1 ∧
    specSmoothedAt [5, 0, 0, 0, 0, 0] 5 = 0 ∧
    smoothedOf [10, 20, 30] = [10, 15, 20] := by
  refine ⟨?_, ?_, ?_⟩ <;>
    norm_num [smoothedAt, specSmoothedAt, smoothedOf, List.range_succ]

/-- C4 (counterexample): the claim says that with an undersized feature
window the dependent event is marked inactive by the evaluation even if it
was active before; in the code the rule is skipped entirely, so an active
Irregular Rhythm stays active across an evaluation whose RR window is
empty. -/
theorem C4_counterexample :
    stC4.rr_intervals.length ≤ 6 ∧
    stC4.event_state .irregularRhythm = true ∧
    (detect_events 0 0 stC4).event_state .irregularRhythm = true := by
  refine ⟨by simp [stC4, initState], by simp [stC4], ?_⟩
  rw [detect_state_irregular]
  simp [irregularAfter, stC4, initState]

/-- C4 (amended): per feature window — whenever one window holds no more
than its minimum sample count, the rules depending on that window (and
only those) are skipped in that evaluation: the corresponding events'
active state and occurrence counts are left exactly as they were (not
forced inactive), and no error is raised; the other windows' rules are
unaffected by that shortage. -/
theorem C4_skipped_rules (val : ℤ) (now : ℚ) (st : SessionState) :
    (st.rr_intervals.length ≤ 6 →
      ((detect_events val now st).event_state .irregularRhythm
          = st.event_state .irregularRhythm) ∧
      ((detect_events val now st).event_state .sinusNodeDysfunction
          = st.event_state .sinusNodeDysfunction) ∧
      ((detect_events val now st).event_state .firstDegreeAVBlock
          = st.event_state .firstDegreeAVBlock) ∧
      ((detect_events val now st).event_counts .irregularRhythm
          = st.event_counts .irregularRhythm) ∧
      ((detect_events val now st).event_counts .sinusNodeDysfunction
          = st.event_counts .sinusNodeDysfunction) ∧
      ((detect_events val now st).event_counts .firstDegreeAVBlock
          = st.event_counts .firstDegreeAVBlock)) ∧
    (st.qrs_widths.length ≤ 5 →
      ((detect_events val now st).event_state .bundleBranchBlock
          = st.event_state .bundleBranchBlock) ∧
      ((detect_events val now st).event_counts .bundleBranchBlock
          = st.event_counts .bundleBranchBlock)) ∧
    (st.qt_intervals.length ≤ 5 →
      ((detect_events val now st).event_state .longQT
          = st.event_state .longQT) ∧
      ((detect_events val now st).event_state .shortQT
          = st.event_state .shortQT) ∧
      ((detect_events val now st).event_counts .longQT
          = st.event_counts .longQT) ∧
      ((detect_events val now st).event_counts .shortQT
          = st.event_counts .shortQT)) := by
  refine ⟨fun h1 => ?_, fun h2 => ?_, fun h3 => ?_⟩
  · have g1 : ¬ 6 < st.rr_intervals.length := not_lt.mpr h1
    refine ⟨?_, ?_, ?_, ?_, ?_, ?_⟩
    · rw [detect_state_irregular]; simp [irregularAfter, g1]
    · rw [detect_state_sinus, if_neg g1]
    · rw [detect_state_avblock, if_neg g1]
    · rw [detect_counts_irregular, if_neg g1]
    · rw [detect_counts_sinus, if_neg g1]
    · rw [detect_counts_avblock, if_neg g1]
  · have g2 : ¬ 5 < st.qrs_widths.length := not_lt.mpr h2
    exact ⟨by rw [detect_state_bbb, if_neg g2],
      by rw [detect_counts_bbb, if_neg g2]⟩
  · have g3 : ¬ 5 < st.qt_intervals.length := not_lt.mpr h3
    exact ⟨by rw [detect_state_longQT, if_neg g3],
      by rw [detect_state_shortQT, if_neg g3],
      by rw [detect_counts_longQT, if_neg g3],
      by rw [detect_counts_shortQT, if_neg g3]⟩

/-- C4 (witness): the amended statement applied to `stC4` at a sample of
value 0 and time 0, each per-window hypothesis discharged on the empty
windows of `stC4`. -/
theorem C4_witness :
    (((detect_events 0 0 stC4).event_state .irregularRhythm
        = stC4.event_state .irregularRhythm) ∧
      ((detect_events 0 0 stC4).event_state .sinusNodeDysfunction
        = stC4.event_state .sinusNodeDysfunction) ∧
      ((detect_events 0 0 stC4).event_state .firstDegreeAVBlock
        = stC4.event_state .firstDegreeAVBlock) ∧
      ((detect_events 0 0 stC4).event_counts .irregularRhythm
        = stC4.event_counts .irregularRhythm) ∧
      ((detect_events 0 0 stC4).event_counts .sinusNodeDysfunction
        = stC4.event_counts .sinusNodeDysfunction) ∧
      ((detect_events 0 0 stC4).event_counts .firstDegreeAVBlock
        = stC4.event_counts .firstDegreeAVBlock)) ∧
    (((detect_events 0 0 stC4).event_state .bundleBranchBlock
        = stC4.event_state .bundleBranchBlock) ∧
      ((detect_events 0 0 stC4).event_counts .bundleBranchBlock
        = stC4.event_counts .bundleBranchBlock)) ∧
    (((detect_events 0 0 stC4).event_state .longQT
        = stC4.event_state .longQT) ∧
      ((detect_events 0 0 stC4).event_state .shortQT
        = stC4.event_state .shortQT) ∧
      ((detect_events 0 0 stC4).event_counts .longQT
        = stC4.event_counts .longQT) ∧
      ((detect_events 0 0 stC4).event_counts .shortQT
        = stC4.event_counts .shortQT)) :=
  ⟨(C4_skipped_rules 0 0 stC4).1 (by simp [stC4, initState]),
    (C4_skipped_rules 0 0 stC4).2.1 (by simp [stC4, initState]),
    (C4_skipped_rules 0 0 stC4).2.2 (by simp [stC4, initState])⟩

/-- C5: after every call to `detect_events`, Asystole/Flatline is active
iff `now - last_signal_time > ASYSTOLE_SEC`; and on a threshold-crossing
sample the full loop body leaves Asystole inactive, because the peak branch
advances `last_signal_time` to the sample time before the evaluation. -/
theorem C5_asystole (val : ℤ) (now : ℚ) (st : SessionState) :
    ((detect_events val now st).event_state .asystole
      = decide (ASYSTOLE_SEC < now - st.last_signal_time)) ∧
    (R_THRESHOLD < val → (loopStep val now st).event_state .asystole = false) := by
  refine ⟨detect_state_asystole val now st, fun h => ?_⟩
  rw [loopStep_event_state, detect_state_asystole, peakUpdate_lastSignal,
    recordRaw_lastSignal, if_pos h, sub_self]
  simp only [decide_eq_false_iff_not, ASYSTOLE_SEC]
  norm_num

/-- C5 (witness): on a fresh state a crossing sample of value 16000 at
time 0 satisfies the hypothesis and leaves Asystole inactive. -/
theorem C5_witness :
    ((detect_events 16000 0 (initState 0)).event_state .asystole
      = decide (ASYSTOLE_SEC < 0 - (initState 0).last_signal_time)) ∧
    (loopStep 16000 0 (initState 0)).event_state .asystole = false :=
  ⟨(C5_asystole 16000 0 (initState 0)).1,
    (C5_asystole 16000 0 (initState 0)).2 (by decide)⟩

/-- C6: a threshold crossing within the 0.25 s refractory gap of the
previous peak emits no RR interval and no BPM update, yet still advances
`last_peak_time` and `last_signal_time` to the sample time. -/
theorem C6_refractory (val : ℤ) (t : ℚ) (st : SessionState) (lp : ℚ)
    (h1 : st.last_peak_time = some lp) (h2 : R_THRESHOLD < val)
    (h3 : t - lp ≤ 0.25) :
    (loopStep val t st).rr_intervals = st.rr_intervals ∧
    (loopStep val t st).current_bpm = st.current_bpm ∧
    (loopStep val t st).bpm_history = st.bpm_history ∧
    (loopStep val t st).bpm_timestamps = st.bpm_timestamps ∧
    (loopStep val t st).last_peak_time = some t ∧
    (loopStep val t st).last_signal_time = t := by
  have key := peakUpdate_noAccept val t (recordRaw val t st) lp h1 h2 h3
  exact ⟨by rw [loopStep_rr, key]; rfl, by rw [loopStep_bpm, key]; rfl,
    by rw [loopStep_bpmHist, key]; rfl, by rw [loopStep_bpmTs, key]; rfl,
    by rw [loopStep_lastPeak, key], by rw [loopStep_lastSignal, key]⟩

/-- C6 (witness): a crossing at time 10.2 with the previous peak at 10
(gap 0.2 s ≤ 0.25 s) leaves the RR window and BPM alone but advances both
timestamps. -/
theorem C6_witness :
    (loopStep 16000 10.2 stC6).rr_intervals = stC6.rr_intervals ∧
    (loopStep 16000 10.2 stC6).current_bpm = stC6.current_bpm ∧
    (loopStep 16000 10.2 stC6).bpm_history = stC6.bpm_history ∧
    (loopStep 16000 10.2 stC6).bpm_timestamps = stC6.bpm_timestamps ∧
    (loopStep 16000 10.2 stC6).last_peak_time = some 10.2 ∧
    (loopStep 16000 10.2 stC6).last_signal_time = 10.2 :=
  C6_refractory 16000 10.2 stC6 10 rfl (by decide) (by norm_num)

/-- C7: an accepted RR interval `t - lp` (threshold crossed, truthy
previous peak, refractory guard passed) sets `current_bpm` to the floor of
`60 / (t - lp)` and appends exactly one BPM sample with timestamp `t`. -/
theorem C7_bpm (val : ℤ) (t : ℚ) (st : SessionState) (lp : ℚ)
    (h1 : st.last_peak_time = some lp) (h0 : lp ≠ 0)
    (h2 : R_THRESHOLD < val) (h3 : 0.25 < t - lp) :
    (loopStep val t st).current_bpm = ⌊(60 : ℚ) / (t - lp)⌋ ∧
    (loopStep val t st).bpm_history
      = st.bpm_history ++ [⌊(60 : ℚ) / (t - lp)⌋] ∧
    (loopStep val t st).bpm_timestamps = st.bpm_timestamps ++ [t] := by
  have key := peakUpdate_accept val t (recordRaw val t st) lp h1 h0 h2 h3
  exact ⟨by rw [loopStep_bpm, key], by rw [loopStep_bpmHist, key]; rfl,
    by rw [loopStep_bpmTs, key]; rfl⟩

/-- C7 (witness): an accepted interval of 1 s gives `current_bpm = 60` and
one appended BPM sample. -/
theorem C7_witness :
    (loopStep 16000 2 stC7).current_bpm = ⌊(60 : ℚ) / (2 - 1)⌋ ∧
    (loopStep 16000 2 stC7).bpm_history
      = stC7.bpm_history ++ [⌊(60 : ℚ) / (2 - 1)⌋] ∧
    (loopStep 16000 2 stC7).bpm_timestamps = stC7.bpm_timestamps ++ [2] :=
  C7_bpm 16000 2 stC7 1 rfl (by norm_num) (by decide) (by norm_num)

/-- C8: after every evaluation, Myocarditis (possible) is active iff at
least two of Tachycardia, Irregular Rhythm and Early Repolarization are
active in the event state as updated by the same evaluation cycle. -/
theorem C8_myocarditis (val : ℤ) (now : ℚ) (st : SessionState) :
    (detect_events val now st).event_state .myocarditis
      = decide (2 ≤
          ((detect_events val now st).event_state .tachycardia).toNat
          + ((detect_events val now st).event_state .irregularRhythm).toNat
          + ((detect_events val now st).event_state .earlyRepolarization).toNat)
    := by
  rw [detect_state_myocarditis, detect_state_tachy, detect_state_irregular,
    detect_state_earlyRepol]
  simp only [myoScore]

/-- The alignment invariant of C9: raw samples, their timestamps and the
flag timeline share one length, and the BPM pair shares another. -/
def aligned (st : SessionState) : Prop :=
  st.ecg_data.length = st.timestamps.length ∧
  st.timestamps.length = st.event_timeline.length ∧
  st.bpm_history.length = st.bpm_timestamps.length

/-- C9: the loop body preserves history alignment (one raw sample, one
timestamp and one flag snapshot per cycle; the BPM pair appended together
or not at all) and `reset` re-establishes it. -/
theorem C9_alignment (val : ℤ) (t : ℚ) (st : SessionState) (h : aligned st) :
    aligned (loopStep val t st) ∧ aligned (resetState st) := by
  obtain ⟨h1, h2, h3⟩ := h
  refine ⟨⟨?_, ?_, ?_⟩, by simp [aligned, resetState]⟩
  · simp [h1]
  · rw [loopStep_timeline_len]
    simp [h2]
  · rcases peakUpdate_bpm_cases val t (recordRaw val t st) with ⟨ha, hb⟩ | ⟨b, ha, hb⟩
    · rw [loopStep_bpmHist, loopStep_bpmTs, ha, hb]; exact h3
    · rw [loopStep_bpmHist, loopStep_bpmTs, ha, hb]
      simp [h3]

/-- C9 (witness): alignment after one loop step and after a reset from the
fresh initial state. -/
theorem C9_witness :
    aligned (loopStep 0 0 (initState 0)) ∧ aligned (resetState (initState 0)) :=
  C9_alignment 0 0 (initState 0) (by simp [aligned, initState])

/-- C10: whenever Ventricular Tachycardia is active after an evaluation,
Tachycardia is active too, since both predicates test the same defined
`current_bpm` and `VTACH_BPM = 150 > TACHY_BPM = 100`. -/
theorem C10_vtach_tachy (val : ℤ) (now : ℚ) (st : SessionState)
    (h : (detect_events val now st).event_state .ventricularTachycardia = true) :
    (detect_events val now st).event_state .tachycardia = true := by
  rw [detect_state_vtach] at h
  rw [detect_state_tachy, decide_eq_true_eq]
  rw [decide_eq_true_eq] at h
  exact ⟨h.1, lt_trans (by norm_num [TACHY_BPM, VTACH_BPM]) h.2⟩

/-- C10 (witness): at 160 BPM both Ventricular Tachycardia and Tachycardia
come out active. -/
theorem C10_witness :
    (detect_events 0 0 stBpm160).event_state .tachycardia = true :=
  C10_vtach_tachy 0 0 stBpm160 (by
    rw [detect_state_vtach]
    simp [stBpm160, initState, VTACH_BPM])

end EcgApp
